import Mathlib

/-
Verification of the demo collaboration server
(examples/react-websocket/src/server/main.ts).

The file embeds the route handlers of the server shallowly: each Express
handler becomes a pure Lean function from its inputs (route parameters,
parsed body, current store state, current time) to its response and the
new store state.  The Metadata Store (db.ts, JSONDatabase) is not part of
the sources, so its five operations are modelled from the specification
(spec §4.1) and marked as such.
-/

set_option maxHeartbeats 1000000

namespace BlocksuiteServer

/-- Metadata record for a collaborative document (spec §3): `id` is the
unique primary key, `title` the display name, and the timestamps are
implementation-defined. -/
structure DocMeta where
  id : String
  title : String
  createdAt : Nat
  updatedAt : Nat
deriving DecidableEq, Repr

/-- The Metadata Store state: the collection of DocMeta records held in
the backing JSON file. -/
abbrev Store := List DocMeta

/-- Modelled from the spec: `db.ts` (JSONDatabase) is not among the
sources; spec §4.1 gives `get(id) -> DocMeta | absent`, a key-value
lookup by the unique primary key. -/
def getDocMeta (s : Store) (id : String) : Option DocMeta :=
  s.find? (fun m => m.id == id)

/-- Modelled from the spec: `db.ts` is not among the sources; spec §4.1
gives `getAll() -> list of DocMeta`. -/
def getDocMetas (s : Store) : List DocMeta := s

/-- Modelled from the spec: `db.ts` is not among the sources; spec §4.1
gives `add(meta) -> DocMeta | failure`, key-value persistence keyed by
the unique `id` (spec §2, §3).  `writeOk` models the underlying file
write; its failure surfaces as the generic failure result `none`, never
as an exception. -/
def addDocMeta (writeOk : Bool) (s : Store) (meta : DocMeta) : Option (DocMeta × Store) :=
  if writeOk then some (meta, s.filter (fun x => x.id != meta.id) ++ [meta]) else none

/-- Modelled from the spec: `db.ts` is not among the sources; spec §4.1
gives `update(id, patch) -> DocMeta | absent`; the title-update endpoint
passes a patch holding only the title field, and per spec §8 only the
title field of the addressed record changes. -/
def updateDocMeta (writeOk : Bool) (s : Store) (id : String) (newTitle : String) :
    Option (DocMeta × Store) :=
  if writeOk then
    match getDocMeta s id with
    | none => none
    | some old =>
        let upd : DocMeta := { old with title := newTitle }
        some (upd, s.map (fun x => if x.id == id then upd else x))
  else none

/-- Modelled from the spec: `db.ts` is not among the sources; spec §4.1
gives `delete(id) -> boolean` and spec §8 says deleting a nonexistent id
reports failure while deleting an existing id removes it from subsequent
list queries. -/
def deleteDocMeta (s : Store) (id : String) : Bool × Store :=
  ((getDocMeta s id).isSome, s.filter (fun x => x.id != id))

/-- A JSON-like value, the type of a field of a request body. -/
inductive Json where
  | null : Json
  | bool : Bool → Json
  | num : Int → Json
  | str : String → Json
  | arr : List Json → Json
  | obj : List (String × Json) → Json

/-- The JS test `typeof v === 'string'` for an optional body field
(`none` models an absent field, i.e. `undefined`). -/
def isStringValue : Option Json → Bool
  | some (Json.str _) => true
  | _ => false

/-- One HTTP send: a status code and a text body. -/
structure HttpSend where
  status : Nat
  body : String
deriving DecidableEq, Repr

/-- The issuer name of the service (`appName` in main.ts line 20). -/
def appName : String := "blocksuite-example"

/-- The claims of an access token (spec §3, AccessToken). -/
structure TokenClaims where
  iss : String
  exp : Nat
  yuserid : String
deriving DecidableEq, Repr

/-- An incoming HTTP request, as far as a handler could read it: route
parameters, query parameters and headers. -/
structure AuthRequest where
  params : List (String × String)
  query : List (String × String)
  headers : List (String × String)
deriving DecidableEq, Repr

/-- GET /auth/token (main.ts lines 64-72): signs a token whose claims are
the issuer name, `Date.now() + 1000 * 60 * 60` and the constant user id
`user1`.  The request argument is ignored, as in the source (`(_, res)`). -/
def authTokenHandler (_ : AuthRequest) (now : Nat) : TokenClaims :=
  { iss := appName, exp := now + 1000 * 60 * 60, yuserid := "user1" }

/-- The JSON body returned by GET /auth/perm/:room/:userid. -/
structure PermResponse where
  yroom : String
  yaccess : String
  yuserid : String
deriving DecidableEq, Repr

/-- GET /auth/perm/:room/:userid (main.ts lines 108-126): `yaccess`
starts as "rw" and becomes "no-access" when the store has no DocMeta for
the requested room. -/
def permHandler (s : Store) (room userid : String) : PermResponse :=
  let yaccess := if getDocMeta s room = none then "no-access" else "rw"
  { yroom := room, yaccess := yaccess, yuserid := userid }

/-- Result of PATCH /api/docs/:id/title. -/
inductive PatchResult where
  | badRequest : PatchResult
  | ok : DocMeta → PatchResult
  | serverError : PatchResult
deriving DecidableEq, Repr

/-- HTTP status carried by each PatchResult: 400 for the missing-title
early return, 200 for `res.json(result)`, 500 for the failure branch. -/
def PatchResult.status : PatchResult → Nat
  | .badRequest => 400
  | .ok _ => 200
  | .serverError => 500

/-- PATCH /api/docs/:id/title (main.ts lines 150-163): a non-string
`title` returns 400 before the store is touched; otherwise the store
update decides between 200 with the updated record and 500. -/
def patchTitleHandler (writeOk : Bool) (s : Store) (id : String) (title : Option Json) :
    PatchResult × Store :=
  match title with
  | some (Json.str t) =>
      match updateDocMeta writeOk s id t with
      | some (m, s') => (PatchResult.ok m, s')
      | none => (PatchResult.serverError, s)
  | _ => (PatchResult.badRequest, s)

/-- Result of POST /api/docs. -/
inductive PostResult where
  | created : DocMeta → PostResult
  | serverError : PostResult
deriving DecidableEq, Repr

/-- HTTP status carried by each PostResult: 201 for
`res.status(201).json(result)`, 500 for the failure branch. -/
def PostResult.status : PostResult → Nat
  | .created _ => 201
  | .serverError => 500

/-- POST /api/docs (main.ts lines 138-147): delegates the body to the
store add; a truthy result is answered 201 with the resulting DocMeta,
a falsy one 500. -/
def postDocsHandler (writeOk : Bool) (s : Store) (body : DocMeta) : PostResult × Store :=
  match addDocMeta writeOk s body with
  | some (m, s') => (PostResult.created m, s')
  | none => (PostResult.serverError, s)

/-- DELETE /api/docs/:id (main.ts lines 166-174): the not-found branch
does not return, so the final success send executes unconditionally; the
sends are listed in program order. -/
def deleteDocsHandler (s : Store) (docId : String) : List HttpSend × Store :=
  let r := deleteDocMeta s docId
  let notFound : List HttpSend :=
    if r.1 then [] else [{ status := 404, body := "Document " ++ docId ++ " not found" }]
  (notFound ++ [{ status := 200, body := "Document " ++ docId ++ " removed" }], r.2)

/-- Outcome of the formidable parse of the /ydoc/:room multipart body:
either a parse error or the parsed files, a map from field name to the
list of uploaded file contents (byte lists). -/
inductive ParseOutcome where
  | err : ParseOutcome
  | ok : List (String × List (List Nat)) → ParseOutcome

/-- Lookup of `files.name` in the parsed multipart files. -/
def lookupFiles (files : List (String × List (List Nat))) (name : String) :
    Option (List (List Nat)) :=
  (files.find? (fun p => p.1 == name)).map Prod.snd

/-- Observable outcome of the /ydoc/:room handler: the parse error is
handed to `next(err)` (the 500-class error path), a present `ydoc` field
leads to `res.sendStatus(200)`, and with no `ydoc` field the awaited
promise never settles, so no response is ever sent. -/
inductive YdocOutcome where
  | passedToErrorHandler : YdocOutcome
  | sentStatus : Nat → YdocOutcome
  | noResponse : YdocOutcome
deriving DecidableEq, Repr

/-- /ydoc/:room (main.ts lines 76-104): the parse callback calls
`next(err)`/`reject` on error, resolves only when `files.ydoc` is set
(after which the handler sends 200), and otherwise leaves the promise
pending forever. -/
def ydocHandler (parse : ParseOutcome) : YdocOutcome :=
  match parse with
  | .err => .passedToErrorHandler
  | .ok files =>
      match lookupFiles files "ydoc" with
      | some _ => .sentStatus 200
      | none => .noResponse

/-- Sample record used by concrete witnesses. -/
def sampleDoc1 : DocMeta := { id := "room1", title := "First", createdAt := 1, updatedAt := 1 }

/-- Sample record used by concrete witnesses. -/
def sampleDoc2 : DocMeta := { id := "room2", title := "Second", createdAt := 2, updatedAt := 2 }

/-- `sampleDoc1` after its title is renamed. -/
def sampleDoc1Renamed : DocMeta :=
  { id := "room1", title := "Renamed", createdAt := 1, updatedAt := 1 }

-- --------------------------
-- Theorems
-- --------------------------

/-- A found DocMeta carries the looked-up id. -/
theorem getDocMeta_id (s : Store) (id : String) (old : DocMeta)
    (h : getDocMeta s id = some old) : old.id = id := by
  have hp := List.find?_some h
  exact eq_of_beq hp

/-- C1: a GET to /auth/perm/:room/:userid responds with the requested
room and userid, and `yaccess` is "no-access" exactly when the Metadata
Store has no DocMeta entry for that room, "rw" otherwise. -/
theorem perm_handler_contract (s : Store) (room userid : String) :
    (permHandler s room userid).yroom = room ∧
    (permHandler s room userid).yuserid = userid ∧
    ((permHandler s room userid).yaccess = "no-access" ↔ getDocMeta s room = none) ∧
    ((permHandler s room userid).yaccess = "rw" ↔ getDocMeta s room ≠ none) := by
  refine ⟨rfl, rfl, ?_, ?_⟩ <;>
    · unfold permHandler
      by_cases h : getDocMeta s room = none <;> simp [h]

/-- C2: every token issued by GET /auth/token carries an `exp` claim equal
to the issuance time plus exactly 3600000 ms and an `iss` claim equal to
the service's issuer name. -/
theorem auth_token_expiry_issuer (req : AuthRequest) (now : Nat) :
    (authTokenHandler req now).exp = now + 3600000 ∧
    (authTokenHandler req now).iss = appName :=
  ⟨rfl, rfl⟩

/-- C9: the claims issued by GET /auth/token are independent of the
request, and the `yuserid` claim is always the constant string "user1". -/
theorem auth_token_constant_user (req1 req2 : AuthRequest) (now : Nat) :
    authTokenHandler req1 now = authTokenHandler req2 now ∧
    (authTokenHandler req1 now).yuserid = "user1" :=
  ⟨rfl, rfl⟩

/-- C3: PATCH /api/docs/:id/title with a body whose title field is not a
string responds 400 and leaves the store unchanged. -/
theorem patch_title_non_string (writeOk : Bool) (s : Store) (id : String)
    (title : Option Json) (h : isStringValue title = false) :
    patchTitleHandler writeOk s id title = (PatchResult.badRequest, s) ∧
    (patchTitleHandler writeOk s id title).1.status = 400 := by
  match title with
  | none => exact ⟨rfl, rfl⟩
  | some Json.null => exact ⟨rfl, rfl⟩
  | some (Json.bool b) => exact ⟨rfl, rfl⟩
  | some (Json.num n) => exact ⟨rfl, rfl⟩
  | some (Json.str t) => exact absurd h (by simp [isStringValue])
  | some (Json.arr l) => exact ⟨rfl, rfl⟩
  | some (Json.obj o) => exact ⟨rfl, rfl⟩

/-- C3 witness: a numeric title against a nonempty store. -/
theorem patch_title_non_string_witness :
    isStringValue (some (Json.num 5)) = false ∧
    (patchTitleHandler true [sampleDoc1] "room1" (some (Json.num 5)) =
        (PatchResult.badRequest, [sampleDoc1]) ∧
      (patchTitleHandler true [sampleDoc1] "room1" (some (Json.num 5))).1.status = 400) :=
  ⟨rfl, patch_title_non_string true [sampleDoc1] "room1" (some (Json.num 5)) rfl⟩

/-- C4: DELETE /api/docs/:id for an id with no DocMeta entry in the
store responds with status 404 (the first send that reaches the client). -/
theorem delete_missing_responds_404 (s : Store) (docId : String)
    (h : getDocMeta s docId = none) :
    (deleteDocsHandler s docId).1.head? =
      some { status := 404, body := "Document " ++ docId ++ " not found" } := by
  unfold deleteDocsHandler deleteDocMeta
  simp [h]

/-- C4 witness: deleting an id absent from a nonempty store. -/
theorem delete_missing_responds_404_witness :
    getDocMeta [sampleDoc1] "missing" = none ∧
    (deleteDocsHandler [sampleDoc1] "missing").1.head? =
      some { status := 404, body := "Document " ++ "missing" ++ " not found" } :=
  ⟨by decide, delete_missing_responds_404 [sampleDoc1] "missing" (by decide)⟩

/-- C10: when the store's delete reports failure, the handler runs the
404 not-found send and still falls through to the unconditional success
send: both sends execute, in program order. -/
theorem delete_fallthrough_double_send (s : Store) (docId : String)
    (h : (deleteDocMeta s docId).1 = false) :
    (deleteDocsHandler s docId).1 =
      [{ status := 404, body := "Document " ++ docId ++ " not found" },
       { status := 200, body := "Document " ++ docId ++ " removed" }] := by
  unfold deleteDocsHandler
  simp [h]

/-- C10 witness: a failing delete on a concrete store performs both sends. -/
theorem delete_fallthrough_double_send_witness :
    (deleteDocMeta [sampleDoc1] "ghost").1 = false ∧
    (deleteDocsHandler [sampleDoc1] "ghost").1 =
      [{ status := 404, body := "Document " ++ "ghost" ++ " not found" },
       { status := 200, body := "Document " ++ "ghost" ++ " removed" }] :=
  ⟨by decide, delete_fallthrough_double_send [sampleDoc1] "ghost" (by decide)⟩

/-- C5: a DocMeta successfully created by POST /api/docs appears exactly
once in a subsequent GET /api/docs listing. -/
theorem post_then_list_exactly_once (writeOk : Bool) (s : Store) (body : DocMeta)
    (m : DocMeta) (s' : Store)
    (h : postDocsHandler writeOk s body = (PostResult.created m, s')) :
    (getDocMetas s').count m = 1 := by
  unfold postDocsHandler addDocMeta at h
  by_cases hw : writeOk
  · simp only [hw, if_true] at h
    obtain ⟨hm, hs⟩ := Prod.mk.injEq .. ▸ h
    have hm' : m = body := by
      cases hm
      rfl
    subst hm' hs
    unfold getDocMetas
    rw [List.count_append, List.count_singleton]
    have hz : (s.filter (fun x => x.id != m.id)).count m = 0 := by
      rw [List.count_eq_zero]
      intro hmem
      have := (List.mem_filter.mp hmem).2
      simp at this
    rw [hz]
    simp
  · simp [hw] at h

/-- C5 witness: creating a fresh record in a one-record store lists it
exactly once. -/
theorem post_then_list_exactly_once_witness :
    postDocsHandler true [sampleDoc1] sampleDoc2 =
      (PostResult.created sampleDoc2, [sampleDoc1, sampleDoc2]) ∧
    (getDocMetas [sampleDoc1, sampleDoc2]).count sampleDoc2 = 1 :=
  ⟨by decide,
   post_then_list_exactly_once true [sampleDoc1] sampleDoc2 sampleDoc2
     [sampleDoc1, sampleDoc2] (by decide)⟩

/-- C8: POST /api/docs responds 201 with the resulting DocMeta when the
store add succeeds and 500 when it reports failure; a write failure is
the `none` result of the total add function, not an exception reaching
the route layer. -/
theorem post_docs_status (writeOk : Bool) (s : Store) (body : DocMeta) :
    (∀ m s', addDocMeta writeOk s body = some (m, s') →
        postDocsHandler writeOk s body = (PostResult.created m, s') ∧
        (postDocsHandler writeOk s body).1.status = 201) ∧
    (addDocMeta writeOk s body = none →
        postDocsHandler writeOk s body = (PostResult.serverError, s) ∧
        (postDocsHandler writeOk s body).1.status = 500) ∧
    (writeOk = false → addDocMeta writeOk s body = none) := by
  refine ⟨?_, ?_, ?_⟩
  · intro m s' h
    unfold postDocsHandler
    rw [h]
    exact ⟨rfl, rfl⟩
  · intro h
    unfold postDocsHandler
    rw [h]
    exact ⟨rfl, rfl⟩
  · intro h
    subst h
    rfl

/-- C8 witness: a successful and a failed add on concrete inputs. -/
theorem post_docs_status_witness :
    postDocsHandler true [sampleDoc1] sampleDoc2 =
      (PostResult.created sampleDoc2, [sampleDoc1, sampleDoc2]) ∧
    postDocsHandler false [sampleDoc1] sampleDoc2 = (PostResult.serverError, [sampleDoc1]) :=
  ⟨((post_docs_status true [sampleDoc1] sampleDoc2).1 sampleDoc2
      [sampleDoc1, sampleDoc2] (by decide)).1,
   ((post_docs_status false [sampleDoc1] sampleDoc2).2.1 (by decide)).1⟩

/-- A successful store update found the old record and produced the
renamed record together with the pointwise-rewritten store. -/
theorem updateDocMeta_some (writeOk : Bool) (s : Store) (id t : String)
    (m : DocMeta) (s' : Store)
    (h : updateDocMeta writeOk s id t = some (m, s')) :
    ∃ old, getDocMeta s id = some old ∧ m = { old with title := t } ∧
      s' = s.map (fun x => if x.id == id then m else x) := by
  unfold updateDocMeta at h
  by_cases hw : writeOk
  · simp only [hw, if_true] at h
    cases hg : getDocMeta s id with
    | none => rw [hg] at h; exact absurd h (by simp)
    | some old =>
        rw [hg] at h
        simp only [Option.some.injEq, Prod.mk.injEq] at h
        exact ⟨old, rfl, h.1.symm, by rw [← h.1, ← h.2]⟩
  · simp [hw] at h

/-- C6: a successful PATCH /api/docs/:id/title changes only the title of
the addressed record: the result keeps the old id and timestamps, and
every record whose id differs from the addressed one is unchanged at its
position in the store. -/
theorem patch_title_frame (writeOk : Bool) (s : Store) (id t : String)
    (m : DocMeta) (s' : Store)
    (h : patchTitleHandler writeOk s id (some (Json.str t)) = (PatchResult.ok m, s')) :
    m.id = id ∧ m.title = t ∧
    (∃ old, getDocMeta s id = some old ∧ m.id = old.id ∧
      m.createdAt = old.createdAt ∧ m.updatedAt = old.updatedAt) ∧
    s'.length = s.length ∧
    ∀ i (hi : i < s.length) (hi' : i < s'.length),
      (s.get ⟨i, hi⟩).id ≠ id → s'.get ⟨i, hi'⟩ = s.get ⟨i, hi⟩ := by
  have hu : updateDocMeta writeOk s id t = some (m, s') := by
    have h' := h
    simp only [patchTitleHandler] at h'
    cases hm : updateDocMeta writeOk s id t with
    | none =>
        rw [hm] at h'
        simp at h'
    | some p =>
        obtain ⟨m0, s0⟩ := p
        rw [hm] at h'
        simp only [Prod.mk.injEq, PatchResult.ok.injEq] at h'
        rw [h'.1, h'.2]
  obtain ⟨old, hg, hm, hs⟩ := updateDocMeta_some writeOk s id t m s' hu
  have hid : old.id = id := getDocMeta_id s id old hg
  subst hm
  refine ⟨hid, rfl, ⟨old, hg, rfl, rfl, rfl⟩, ?_, ?_⟩
  · rw [hs, List.length_map]
  · intro i hi hi' hne
    subst hs
    have : ∀ hmap : i < (s.map (fun x =>
        if x.id == id then { old with title := t } else x)).length,
        (s.map (fun x => if x.id == id then { old with title := t } else x)).get ⟨i, hmap⟩ =
          (fun x => if x.id == id then { old with title := t } else x) (s.get ⟨i, hi⟩) :=
      fun hmap => List.get_map ..
    rw [this hi']
    have hbeq : ((s.get ⟨i, hi⟩).id == id) = false := beq_eq_false_iff_ne.mpr hne
    simp [hbeq]
    intro hc
    exact absurd hc hne

/-- C6 witness: renaming `sampleDoc1` in a two-record store. -/
theorem patch_title_frame_witness :
    patchTitleHandler true [sampleDoc1, sampleDoc2] "room1" (some (Json.str "Renamed")) =
      (PatchResult.ok sampleDoc1Renamed, [sampleDoc1Renamed, sampleDoc2]) ∧
    (sampleDoc1Renamed.id = "room1" ∧ sampleDoc1Renamed.title = "Renamed" ∧
      (∃ old, getDocMeta [sampleDoc1, sampleDoc2] "room1" = some old ∧
        sampleDoc1Renamed.id = old.id ∧
        sampleDoc1Renamed.createdAt = old.createdAt ∧
        sampleDoc1Renamed.updatedAt = old.updatedAt) ∧
      ([sampleDoc1Renamed, sampleDoc2] : Store).length =
        ([sampleDoc1, sampleDoc2] : Store).length ∧
      ∀ i (hi : i < ([sampleDoc1, sampleDoc2] : Store).length)
        (hi' : i < ([sampleDoc1Renamed, sampleDoc2] : Store).length),
        (([sampleDoc1, sampleDoc2] : Store).get ⟨i, hi⟩).id ≠ "room1" →
          ([sampleDoc1Renamed, sampleDoc2] : Store).get ⟨i, hi'⟩ =
            ([sampleDoc1, sampleDoc2] : Store).get ⟨i, hi⟩) :=
  ⟨by decide,
   patch_title_frame true [sampleDoc1, sampleDoc2] "room1" "Renamed"
     sampleDoc1Renamed [sampleDoc1Renamed, sampleDoc2] (by decide)⟩

/-- C7: a multipart body that parses successfully but contains no file
field named `ydoc` leaves the handler with no response ever sent: the
awaited promise never settles, so neither a status nor an error is
emitted. -/
theorem ydoc_missing_field_no_response (files : List (String × List (List Nat)))
    (h : lookupFiles files "ydoc" = none) :
    ydocHandler (ParseOutcome.ok files) = YdocOutcome.noResponse := by
  simp only [ydocHandler]
  rw [h]

/-- C7 witness: a parsed body holding only an unrelated field. -/
theorem ydoc_missing_field_no_response_witness :
    lookupFiles [("other", [[1, 2, 3]])] "ydoc" = none ∧
    ydocHandler (ParseOutcome.ok [("other", [[1, 2, 3]])]) = YdocOutcome.noResponse :=
  ⟨rfl, ydoc_missing_field_no_response [("other", [[1, 2, 3]])] rfl⟩

end BlocksuiteServer
